import Mathlib

/-!
Shallow embedding of the monitoring core of `mulesoft-anypoint/muletracker-cli`.

The embedding covers, translated from the Go source:
  * the application model (`anypoint/apps.go`: `App`, `GetType`, `FilterCH1`,
    `FilterRTF`),
  * the metrics-backend response model (`InfluxDBResponse` with its nested
    results/series/values shape; a JSON cell is either a numeric value or
    something a `float64` type assertion rejects),
  * the two metric queries (`anypoint/client.go`: `GetLastCalledTime`,
    `GetRequestCount`), with the HTTP layer abstracted as an oracle from the
    built query string to either a transport error or a decoded response, and
    with the list of issued query strings returned alongside the result so
    that "no backend call was made" is expressible,
  * the per-application monitor and the fan-out scheduler
    (`cmd/monitor.go`: `monitorSingleApp`, `monitorAppsConcurrently`,
    `filterAppResults`),
  * the CSV exporter row shape (`ExportResultsToCSV`).

Modelling conventions.
  * Go `error` values become `Option String` (`none` = nil error); `fmt`
    verbs render a nil error as `<nil>`.
  * `time.Time` is modelled by `GoTime`: the zero value `time.Time{}` or a
    value produced by `time.Unix(0, n)`.  For every `int64` nanosecond count
    the latter is distinct from the zero value, which is what `IsZero`
    observes in the code paths modelled here.
  * Numeric JSON cells hold the integral values the metrics backend actually
    produces (epoch-millisecond timestamps and per-minute request counts), so
    Go's `int64(ts)` / `int(countVal)` float conversions are the identity and
    machine-integer overflow (reached only for timestamps beyond year 2262 or
    counts near 2^63) is not modelled.
  * In Go, a response row shorter than the two columns the queries request
    would make `series.Values[i][k]` panic; the model's partial `List.get?`
    returns `none` there instead, and every theorem below stays inside the
    two-column shape the backend contract guarantees.
  * The goroutine fan-out delivers one result per input application through a
    channel in a scheduler-dependent order; the model collects them in input
    order.  The properties proved about the collection (its length, the
    multiset of application ids, the empty-input case) are invariant under
    permutation, hence hold of every schedule.
-/

namespace MuleTracker

/-- A JSON cell of an InfluxDB `values` row: a numeric value (a `float64`
with the integral value carried by the backend) or anything a `float64`
type assertion rejects. -/
inductive JVal where
  | num (n : Int)
  | nonNum
deriving DecidableEq, Repr

/-- One series of an InfluxDB result: its `values` rows (name, tags and
columns are never inspected by the monitoring code). -/
structure Series where
  values : List (List JVal)
deriving DecidableEq, Repr

/-- One entry of `InfluxDBResponse.Results`. -/
structure QueryResult where
  series : List Series
deriving DecidableEq, Repr

/-- The decoded body of a metrics query (`InfluxDBResponse` in the source). -/
structure InfluxDBResponse where
  results : List QueryResult
deriving DecidableEq, Repr

/-- The metrics backend as an oracle: the built query string is mapped to a
transport/HTTP/decode error or a decoded response.  This abstracts
`queryInfluxDB`. -/
def Backend : Type := String → Except String InfluxDBResponse

/-- Go `time.Time` as observed by the monitoring code: the zero value
`time.Time{}` or `time.Unix(0, n)` for an `int64` nanosecond count `n`
(never equal to the zero value, whose year is 1). -/
inductive GoTime where
  | zero
  | unixNano (n : Int)
deriving DecidableEq, Repr

/-- `time.Time.IsZero`. -/
def GoTime.IsZero : GoTime → Bool
  | .zero => true
  | .unixNano _ => false

/-- `time.Unix(0, int64(ts)*int64(time.Millisecond))`: a millisecond epoch
timestamp converted to a `time.Time`. -/
def msToTime (ms : Int) : GoTime :=
  GoTime.unixNano (ms * 1000000)

/-- `App.Target` (`anypoint/apps.go`). -/
structure AppTarget where
  type : String
  subtype : String
  id : String
deriving DecidableEq, Repr

/-- `App.Artifact` (only the field the queries use). -/
structure AppArtifact where
  name : String
deriving DecidableEq, Repr

/-- `App.Details` (only the field the queries use). -/
structure AppDetails where
  domain : String
deriving DecidableEq, Repr

/-- An application as returned by the ARMUI endpoint (`anypoint/apps.go`),
restricted to the fields the monitoring path reads. -/
structure App where
  id : String
  target : AppTarget
  artifact : AppArtifact
  details : AppDetails
deriving DecidableEq, Repr

/-- `App.GetType`: the `MC` target type reports its subtype. -/
def App.GetType (a : App) : String :=
  if a.target.type == "MC" then a.target.subtype else a.target.type

/-- `FilterCH1`: the app is deployed to CloudHub. -/
def FilterCH1 (app : App) : Bool :=
  app.target.type == "CLOUDHUB"

/-- `FilterRTF`: the app is deployed to a runtime fabric. -/
def FilterRTF (app : App) : Bool :=
  app.target.type == "MC" && app.target.subtype == "runtime-fabric"

/-- A single-quote character, used when rendering the InfluxQL templates. -/
def sq : String := String.singleton (Char.ofNat 39)

/-- The CloudHub last-called query template
(`templateCH1` in `GetLastCalledTime`), rendered with its arguments. -/
def lastCalledQueryCH1 (orgID envID domain timeWindow : String) : String :=
  "SELECT percentile(\"avg_request_count\", 75) FROM \"app_inbound_metric\" WHERE \"org_id\" = "
    ++ sq ++ orgID ++ sq ++ " AND \"env_id\" = " ++ sq ++ envID ++ sq
    ++ " AND \"app_id\" = " ++ sq ++ domain ++ sq
    ++ " AND time >= now() - " ++ timeWindow
    ++ " GROUP BY time(1m), \"app_id\" fill(none) tz(" ++ sq ++ "Europe/Paris" ++ sq ++ ")"

/-- The runtime-fabric last-called query template
(`templateRTF` in `GetLastCalledTime`), rendered with its arguments. -/
def lastCalledQueryRTF (orgID envID clusterID artifactName timeWindow : String) : String :=
  "SELECT percentile(\"avg_request_count\", 75) FROM \"app_inbound_metric\" WHERE \"org_id\" = "
    ++ sq ++ orgID ++ sq ++ " AND \"env_id\" = " ++ sq ++ envID ++ sq
    ++ " AND \"cluster_id\" = " ++ sq ++ clusterID ++ sq
    ++ " AND \"app_id\" = " ++ sq ++ artifactName ++ sq
    ++ " AND time >= now() - " ++ timeWindow
    ++ " GROUP BY time(1m), \"app_id\" fill(none) tz(" ++ sq ++ "Europe/Paris" ++ sq ++ ")"

/-- The CloudHub request-count query template
(`templateCH1` in `GetRequestCount`), rendered with its arguments. -/
def requestCountQueryCH1 (orgID envID domain timeWindow : String) : String :=
  "SELECT sum(\"avg_request_count\") FROM \"app_inbound_metric\" WHERE \"org_id\" = "
    ++ sq ++ orgID ++ sq ++ " AND \"env_id\" = " ++ sq ++ envID ++ sq
    ++ " AND \"app_id\" = " ++ sq ++ domain ++ sq
    ++ " AND time >= now() - " ++ timeWindow
    ++ " GROUP BY time(1m), \"app_id\" fill(none) tz(" ++ sq ++ "Europe/Paris" ++ sq ++ ")"

/-- The runtime-fabric request-count query template
(`templateRTF` in `GetRequestCount`), rendered with its arguments. -/
def requestCountQueryRTF (orgID envID clusterID artifactName timeWindow : String) : String :=
  "SELECT sum(\"avg_request_count\") FROM \"app_inbound_metric\" WHERE \"org_id\" = "
    ++ sq ++ orgID ++ sq ++ " AND \"env_id\" = " ++ sq ++ envID ++ sq
    ++ " AND \"cluster_id\" = " ++ sq ++ clusterID ++ sq
    ++ " AND \"app_id\" = " ++ sq ++ artifactName ++ sq
    ++ " AND time >= now() - " ++ timeWindow
    ++ " GROUP BY time(1m), \"app_id\" fill(none) tz(" ++ sq ++ "Europe/Paris" ++ sq ++ ")"

/-- The rows of the first series of the first result, `[]` when either is
absent: the only part of a response the two metric readers traverse
(both guard with `len(resp.Results) > 0 && len(resp.Results[0].Series) > 0`). -/
def firstSeriesValues (resp : InfluxDBResponse) : List (List JVal) :=
  match resp.results with
  | [] => []
  | r0 :: _ =>
    match r0.series with
    | [] => []
    | s0 :: _ => s0.values

/-- The series traversal of `GetLastCalledTime`: the timestamp cell (index 0)
of the last `values` row of the first series, converted from epoch
milliseconds; the zero time when there is no such row or the cell is not a
`float64`. -/
def lastCalledFromResp (resp : InfluxDBResponse) : GoTime :=
  match (firstSeriesValues resp).getLast? with
  | some lastRow =>
    match lastRow.get? 0 with
    | some (JVal.num ts) => msToTime ts
    | _ => GoTime.zero
  | none => GoTime.zero

/-- The series traversal of `GetRequestCount`: `total += int(countVal)` over
the value cell (index 1) of every row of the first series, skipping cells
that are not a `float64`; `0` when the series is absent or empty. -/
def requestCountFromResp (resp : InfluxDBResponse) : Int :=
  (firstSeriesValues resp).foldl
    (fun total entry =>
      match entry.get? 1 with
      | some (JVal.num v) => total + v
      | _ => total)
    0

/-- `Client.GetLastCalledTime`: build the kind-specific query, issue it
against the backend, and read the last timestamp out of the response.
Returns the `(time.Time, error)` pair together with the list of query
strings issued (empty exactly when no backend call is made). -/
def GetLastCalledTime (backend : Backend) (orgID envID : String) (app : App)
    (timeWindow : String) : (GoTime × Option String) × List String :=
  if FilterCH1 app then
    let query := lastCalledQueryCH1 orgID envID app.details.domain timeWindow
    match backend query with
    | .error e => ((GoTime.zero, some ("error querying last called time: " ++ e)), [query])
    | .ok resp => ((lastCalledFromResp resp, none), [query])
  else if FilterRTF app then
    let query := lastCalledQueryRTF orgID envID app.target.id app.artifact.name timeWindow
    match backend query with
    | .error e => ((GoTime.zero, some ("error querying last called time: " ++ e)), [query])
    | .ok resp => ((lastCalledFromResp resp, none), [query])
  else
    ((GoTime.zero, some ("unsupported app type: " ++ app.target.type)), [])

/-- `Client.GetRequestCount`: build the kind-specific query, issue it against
the backend, and sum the value column of the response.  Returns the
`(int, error)` pair together with the list of query strings issued. -/
def GetRequestCount (backend : Backend) (orgID envID : String) (app : App)
    (timeWindow : String) : (Int × Option String) × List String :=
  if FilterCH1 app then
    let query := requestCountQueryCH1 orgID envID app.details.domain timeWindow
    match backend query with
    | .error e => ((0, some ("error querying request count: " ++ e)), [query])
    | .ok resp => ((requestCountFromResp resp, none), [query])
  else if FilterRTF app then
    let query := requestCountQueryRTF orgID envID app.target.id app.artifact.name timeWindow
    match backend query with
    | .error e => ((0, some ("error querying request count: " ++ e)), [query])
    | .ok resp => ((requestCountFromResp resp, none), [query])
  else
    ((0, some ("unsupported app type: " ++ app.target.type)), [])

/-- `AppResult` (`cmd/monitor.go`). -/
structure AppResult where
  AppID : String
  AppType : String
  LastCalled : GoTime
  RequestCount : Int
  Err : Option String
  LCWindow : String
  RCWindow : String
deriving DecidableEq, Repr

/-- How `fmt`'s `%v` renders a Go error slot: `<nil>` for a nil error. -/
def errOrNil : Option String → String
  | none => "<nil>"
  | some s => s

/-- `monitorSingleApp`: run both metric queries for one app and fold their
outcomes into a single `AppResult`; a combined error message is recorded
exactly when at least one query failed.  The second component is the
concatenated list of issued backend queries. -/
def monitorSingleApp (backend : Backend) (orgID envID : String) (app : App)
    (lcWindow rcWindow : String) : AppResult × List String :=
  let lc := GetLastCalledTime backend orgID envID app lcWindow
  let rc := GetRequestCount backend orgID envID app rcWindow
  let err1 := lc.1.2
  let err2 := rc.1.2
  let err : Option String :=
    if err1.isSome || err2.isSome then
      some ("lastCalled error: " ++ errOrNil err1 ++ ", requestCount error: " ++ errOrNil err2)
    else none
  ({ AppID := app.id
     AppType := app.GetType
     LastCalled := lc.1.1
     RequestCount := rc.1.1
     Err := err
     LCWindow := lcWindow
     RCWindow := rcWindow },
   lc.2 ++ rc.2)

/-- `monitorAppsConcurrently`: one `monitorSingleApp` unit of work per input
application, every result collected through the results channel.  The model
lists the results in input order; any actual channel arrival order is a
permutation of it.  The second component is the concatenated list of issued
backend queries. -/
def monitorAppsConcurrently (backend : Backend) (orgID envID lcWindow rcWindow : String)
    (apps : List App) : List AppResult × List String :=
  let pairs := apps.map (fun app => monitorSingleApp backend orgID envID app lcWindow rcWindow)
  (pairs.map Prod.fst, (pairs.map Prod.snd).flatten)

/-- Go `strings.ToLower`, on the ASCII fragment the `--filter` selectors
live in: every character is lowercased independently (`Char.toLower` maps
`A`-`Z` to `a`-`z` and fixes everything else; Unicode-only case foldings
are outside the model). -/
def goToLower (s : String) : String :=
  String.mk (s.data.map Char.toLower)

/-- `filterAppResults`: apply the `--filter` selector to the collected
results; `nonempty` keeps positive request counts, `empty` keeps zero
request counts, anything else returns the input unchanged. -/
def filterAppResults (results : List AppResult) (filterFlag : String) : List AppResult :=
  if goToLower filterFlag == "nonempty" then
    results.filter (fun r => decide (0 < r.RequestCount))
  else if goToLower filterFlag == "empty" then
    results.filter (fun r => decide (r.RequestCount = 0))
  else
    results

/-- The CSV header row written by `ExportResultsToCSV`. -/
def csvHeader : List String :=
  ["App ID", "Last Called", "Request Count", "LC Window", "RC Window"]

/-- The CSV record `ExportResultsToCSV` writes for one result.  `fmtTime`
abstracts `time.Time.Format(time.RFC1123)`, which is only consulted for
non-zero timestamps. -/
def csvRecord (fmtTime : GoTime → String) (res : AppResult) : List String :=
  let lastCalled := if res.LastCalled.IsZero then "No data" else fmtTime res.LastCalled
  [res.AppID, lastCalled, toString res.RequestCount, res.LCWindow, res.RCWindow]

/-- The full sequence of records `ExportResultsToCSV` writes: the header row
followed by one record per result, in input order. -/
def exportResultsToCSVRecords (fmtTime : GoTime → String)
    (results : List AppResult) : List (List String) :=
  csvHeader :: results.map (csvRecord fmtTime)

/-- A sample result with a zero request count, used to instantiate theorems
with hypotheses at concrete inputs. -/
def resZero : AppResult :=
  { AppID := "app-a"
    AppType := "CLOUDHUB"
    LastCalled := GoTime.zero
    RequestCount := 0
    Err := none
    LCWindow := "15m"
    RCWindow := "24h" }

/-- A sample result with request count `5`. -/
def resFive : AppResult :=
  { resZero with AppID := "app-b", RequestCount := 5 }

/-- A sample CloudHub application. -/
def appCH : App :=
  { id := "app-1"
    target := { type := "CLOUDHUB", subtype := "", id := "" }
    artifact := { name := "a1" }
    details := { domain := "d1" } }

/-- A sample application whose deployment target is neither CloudHub nor a
runtime fabric. -/
def appOther : App :=
  { id := "app-o"
    target := { type := "OTHER", subtype := "", id := "" }
    artifact := { name := "ao" }
    details := { domain := "do" } }

/-- A backend whose every response decodes to an empty result list. -/
def emptyBackend : Backend := fun _ => Except.ok ⟨[]⟩

/-- A response whose first series has three rows timestamped 1000, 2000 and
3000 ms with values 7, 8 and 9. -/
def respThree : InfluxDBResponse :=
  ⟨[⟨[⟨[[JVal.num 1000, JVal.num 7],
        [JVal.num 2000, JVal.num 8],
        [JVal.num 3000, JVal.num 9]]⟩]⟩]⟩

/-- A backend that always answers with `respThree`. -/
def bkThree : Backend := fun _ => Except.ok respThree

/-- A response whose single row carries the value `-1`. -/
def respNeg : InfluxDBResponse :=
  ⟨[⟨[⟨[[JVal.num 0, JVal.num (-1)]]⟩]⟩]⟩

/-- A backend that always answers with `respNeg`. -/
def bkNeg : Backend := fun _ => Except.ok respNeg

/-- C1: `monitorAppsConcurrently` yields exactly one `AppResult` per input
application: the output length equals the input length, the multiset of
output `AppID` fields equals the multiset of input application ids, and the
empty input list produces an empty output collection with no backend query
issued. -/
theorem monitorAppsConcurrently_completion (backend : Backend)
    (orgID envID lcWindow rcWindow : String) (apps : List App) :
    (monitorAppsConcurrently backend orgID envID lcWindow rcWindow apps).1.length
        = apps.length ∧
    ((monitorAppsConcurrently backend orgID envID lcWindow rcWindow apps).1.map
          AppResult.AppID : Multiset String)
        = (apps.map App.id : Multiset String) ∧
    monitorAppsConcurrently backend orgID envID lcWindow rcWindow [] = ([], []) := by
  have hmap : (monitorAppsConcurrently backend orgID envID lcWindow rcWindow apps).1.map
      AppResult.AppID = apps.map App.id := by
    simp only [monitorAppsConcurrently, List.map_map]
    rfl
  refine ⟨?_, ?_, rfl⟩
  · simp [monitorAppsConcurrently]
  · rw [hmap]

/-- C3: `monitorSingleApp` records a failure descriptor exactly when at least
one of the two metric queries returned an error; the descriptor renders both
error slots (`<nil>` for the slot that did not fail), and the `LastCalled`
and `RequestCount` fields always hold the values the queries returned.  The
function is total: it returns a result for every input rather than
propagating an error. -/
theorem monitorSingleApp_partial_failure (backend : Backend) (orgID envID : String)
    (app : App) (lcWindow rcWindow : String) :
    (monitorSingleApp backend orgID envID app lcWindow rcWindow).1.Err.isSome
        = ((GetLastCalledTime backend orgID envID app lcWindow).1.2.isSome
            || (GetRequestCount backend orgID envID app rcWindow).1.2.isSome) ∧
    (monitorSingleApp backend orgID envID app lcWindow rcWindow).1.Err
        = (if (GetLastCalledTime backend orgID envID app lcWindow).1.2.isSome
              || (GetRequestCount backend orgID envID app rcWindow).1.2.isSome then
            some ("lastCalled error: "
              ++ errOrNil (GetLastCalledTime backend orgID envID app lcWindow).1.2
              ++ ", requestCount error: "
              ++ errOrNil (GetRequestCount backend orgID envID app rcWindow).1.2)
          else none) ∧
    (monitorSingleApp backend orgID envID app lcWindow rcWindow).1.LastCalled
        = (GetLastCalledTime backend orgID envID app lcWindow).1.1 ∧
    (monitorSingleApp backend orgID envID app lcWindow rcWindow).1.RequestCount
        = (GetRequestCount backend orgID envID app rcWindow).1.1 := by
  refine ⟨?_, rfl, rfl, rfl⟩
  cases h1 : (GetLastCalledTime backend orgID envID app lcWindow).1.2.isSome <;>
    cases h2 : (GetRequestCount backend orgID envID app rcWindow).1.2.isSome <;>
      simp [monitorSingleApp, h1, h2]

/-- C6: `filterAppResults` with selector `nonempty` keeps exactly the results
with positive request count, with `empty` exactly those with request count
zero, and with `all` returns the input itself; each output is an
order-preserving subsequence of the input, and on three results with counts
`[0, 5, 0]` the `nonempty` selector retains exactly the count-5 result. -/
theorem filterAppResults_selectors (results : List AppResult) :
    filterAppResults results "nonempty"
        = results.filter (fun r => decide (0 < r.RequestCount)) ∧
    filterAppResults results "empty"
        = results.filter (fun r => decide (r.RequestCount = 0)) ∧
    filterAppResults results "all" = results ∧
    List.Sublist (filterAppResults results "nonempty") results ∧
    List.Sublist (filterAppResults results "empty") results ∧
    (∀ r, r ∈ filterAppResults results "nonempty" ↔ r ∈ results ∧ 0 < r.RequestCount) ∧
    (∀ r, r ∈ filterAppResults results "empty" ↔ r ∈ results ∧ r.RequestCount = 0) ∧
    (∀ a b c : AppResult, a.RequestCount = 0 → b.RequestCount = 5 → c.RequestCount = 0 →
      filterAppResults [a, b, c] "nonempty" = [b]) := by
  have hne : (goToLower "nonempty" == "nonempty") = true := by decide
  have hnee : (goToLower "nonempty" == "empty") = false := by decide
  have hee : (goToLower "empty" == "empty") = true := by decide
  have hen : (goToLower "empty" == "nonempty") = false := by decide
  have han : (goToLower "all" == "nonempty") = false := by decide
  have hae : (goToLower "all" == "empty") = false := by decide
  refine ⟨by simp [filterAppResults, hne], by simp [filterAppResults, hee, hen],
    by simp [filterAppResults, han, hae], ?_, ?_, ?_, ?_, ?_⟩
  · simp only [filterAppResults, hne, if_true]
    exact List.filter_sublist results
  · simp only [filterAppResults, hee, hen, if_true, Bool.false_eq_true, if_false]
    exact List.filter_sublist results
  · intro r
    simp [filterAppResults, hne, List.mem_filter]
  · intro r
    simp [filterAppResults, hee, hen, List.mem_filter]
  · intro a b c ha hb hc
    simp [filterAppResults, hne, List.filter, ha, hb, hc]

/-- Witness for C6: on concrete results with counts `[0, 5, 0]`, the
`nonempty` selector keeps exactly the count-5 result. -/
theorem filterAppResults_selectors_witness :
    filterAppResults [resZero, resFive, resZero] "nonempty" = [resFive] :=
  (filterAppResults_selectors [resZero, resFive, resZero]).2.2.2.2.2.2.2
    resZero resFive resZero rfl rfl rfl

/-- C10: `filterAppResults` matches its selector case-insensitively (the
selector is lowercased before comparison, so `NonEmpty` behaves like
`nonempty`), and every selector whose lowercase form is neither `nonempty`
nor `empty` — not only `all` — returns the input unchanged. -/
theorem filterAppResults_case_insensitive (results : List AppResult) (flag : String) :
    (goToLower flag = "nonempty" →
      filterAppResults results flag
        = results.filter (fun r => decide (0 < r.RequestCount))) ∧
    (goToLower flag = "empty" →
      filterAppResults results flag
        = results.filter (fun r => decide (r.RequestCount = 0))) ∧
    (goToLower flag ≠ "nonempty" → goToLower flag ≠ "empty" →
      filterAppResults results flag = results) ∧
    filterAppResults results "NonEmpty" = filterAppResults results "nonempty" ∧
    filterAppResults results "EMPTY" = filterAppResults results "empty" ∧
    filterAppResults results "anything-else" = results := by
  have hne : (goToLower "nonempty" == "nonempty") = true := by decide
  have hNE : (goToLower "NonEmpty" == "nonempty") = true := by decide
  have hEE : (goToLower "EMPTY" == "empty") = true := by decide
  have hEN : (goToLower "EMPTY" == "nonempty") = false := by decide
  have hee : (goToLower "empty" == "empty") = true := by decide
  have hen : (goToLower "empty" == "nonempty") = false := by decide
  have hoN : (goToLower "anything-else" == "nonempty") = false := by decide
  have hoE : (goToLower "anything-else" == "empty") = false := by decide
  refine ⟨?_, ?_, ?_, ?_, ?_, ?_⟩
  · intro h
    simp [filterAppResults, h]
  · intro h
    simp [filterAppResults, h]
  · intro h1 h2
    simp [filterAppResults, h1, h2]
  · simp [filterAppResults, hne, hNE]
  · simp [filterAppResults, hEE, hEN, hee, hen]
  · simp [filterAppResults, hoN, hoE]

/-- Witness for C10: the mixed-case selector `NonEmpty` lowercases to
`nonempty` and filters a concrete list accordingly. -/
theorem filterAppResults_case_insensitive_witness :
    goToLower "NonEmpty" = "nonempty" ∧
    filterAppResults [resZero, resFive] "NonEmpty" = [resFive] := by
  constructor
  · decide
  · rw [(filterAppResults_case_insensitive [resZero, resFive] "NonEmpty").1 (by decide)]
    decide

/-- When the app is supported and the backend answers with `resp`,
`GetLastCalledTime` returns the series traversal of `resp` and a nil
error. -/
theorem GetLastCalledTime_ok (backend : Backend) (orgID envID : String) (app : App)
    (timeWindow : String) (resp : InfluxDBResponse)
    (hsupp : FilterCH1 app = true ∨ FilterRTF app = true)
    (hbk : ∀ q, backend q = Except.ok resp) :
    (GetLastCalledTime backend orgID envID app timeWindow).1
        = (lastCalledFromResp resp, none) := by
  rcases hsupp with h | h
  · simp [GetLastCalledTime, h, hbk]
  · cases hc : FilterCH1 app
    · simp [GetLastCalledTime, hc, h, hbk]
    · simp [GetLastCalledTime, hc, hbk]

/-- When the app is supported and the backend answers with `resp`,
`GetRequestCount` returns the series traversal of `resp` and a nil
error. -/
theorem GetRequestCount_ok (backend : Backend) (orgID envID : String) (app : App)
    (timeWindow : String) (resp : InfluxDBResponse)
    (hsupp : FilterCH1 app = true ∨ FilterRTF app = true)
    (hbk : ∀ q, backend q = Except.ok resp) :
    (GetRequestCount backend orgID envID app timeWindow).1
        = (requestCountFromResp resp, none) := by
  rcases hsupp with h | h
  · simp [GetRequestCount, h, hbk]
  · cases hc : FilterCH1 app
    · simp [GetRequestCount, hc, h, hbk]
    · simp [GetRequestCount, hc, hbk]

/-- The request-count fold computes the sum of the value cells when every row
carries a numeric value cell. -/
theorem requestCount_foldl_sum (f : List JVal → Int) :
    ∀ l : List (List JVal), (∀ row ∈ l, row.get? 1 = some (JVal.num (f row))) →
      ∀ a : Int,
        l.foldl
          (fun total entry =>
            match entry.get? 1 with
            | some (JVal.num v) => total + v
            | _ => total)
          a = a + (l.map f).sum := by
  intro l
  induction l with
  | nil =>
    intro _ a
    simp
  | cons hd tl ih =>
    intro h a
    have hhd : hd.get? 1 = some (JVal.num (f hd)) := h hd (List.mem_cons_self hd tl)
    have htl : ∀ row ∈ tl, row.get? 1 = some (JVal.num (f row)) :=
      fun row hr => h row (List.mem_cons_of_mem hd hr)
    simp only [List.foldl_cons, hhd, List.map_cons, List.sum_cons]
    rw [ih htl]
    ring

/-- The request-count fold stays non-negative when every numeric value cell
is non-negative. -/
theorem requestCount_foldl_nonneg :
    ∀ l : List (List JVal),
      (∀ row ∈ l, ∀ v : Int, row.get? 1 = some (JVal.num v) → 0 ≤ v) →
      ∀ a : Int, 0 ≤ a →
        0 ≤ l.foldl
          (fun total entry =>
            match entry.get? 1 with
            | some (JVal.num v) => total + v
            | _ => total)
          a := by
  intro l
  induction l with
  | nil =>
    intro _ a ha
    simpa using ha
  | cons hd tl ih =>
    intro h a ha
    have htl : ∀ row ∈ tl, ∀ v : Int, row.get? 1 = some (JVal.num v) → 0 ≤ v :=
      fun row hr => h row (List.mem_cons_of_mem hd hr)
    simp only [List.foldl_cons]
    cases hcell : hd.get? 1 with
    | none =>
      simp only [hcell]
      exact ih htl a ha
    | some c =>
      cases c with
      | num v =>
        simp only [hcell]
        have hv : 0 ≤ v := h hd (List.mem_cons_self hd tl) v hcell
        exact ih htl (a + v) (by omega)
      | nonNum =>
        simp only [hcell]
        exact ih htl a ha

/-- C4: for a supported app and a backend response whose first result has a
series with at least one row, `GetLastCalledTime` returns the timestamp cell
of the last row of the first series converted from epoch milliseconds,
independent of the rows' value cells; when the first series (or its row
list) is empty it returns the zero-time sentinel with a nil error rather
than an error. -/
theorem GetLastCalledTime_last_timestamp (backend : Backend) (orgID envID : String)
    (app : App) (timeWindow : String) (resp : InfluxDBResponse)
    (hsupp : FilterCH1 app = true ∨ FilterRTF app = true)
    (hbk : ∀ q, backend q = Except.ok resp) :
    (∀ rows row, firstSeriesValues resp = rows ++ [row] →
      ∀ ts : Int, row.get? 0 = some (JVal.num ts) →
        (GetLastCalledTime backend orgID envID app timeWindow).1
          = (msToTime ts, none)) ∧
    (firstSeriesValues resp = [] →
      (GetLastCalledTime backend orgID envID app timeWindow).1
        = (GoTime.zero, none)) := by
  have hres := GetLastCalledTime_ok backend orgID envID app timeWindow resp hsupp hbk
  constructor
  · intro rows row hshape ts hcell
    rw [hres]
    have hcell2 : row[0]? = some (JVal.num ts) := by
      rw [← List.get?_eq_getElem?]
      exact hcell
    have : lastCalledFromResp resp = msToTime ts := by
      simp [lastCalledFromResp, hshape, hcell2, List.getLast?_concat]
    rw [this]
  · intro hempty
    rw [hres]
    simp [lastCalledFromResp, hempty]

/-- Witness for C4: a last-called series with rows timestamped 1000, 2000 and
3000 ms yields the 3000-ms timestamp, regardless of the value cells. -/
theorem GetLastCalledTime_last_timestamp_witness :
    (GetLastCalledTime bkThree "org" "env" appCH "15m").1 = (msToTime 3000, none) :=
  (GetLastCalledTime_last_timestamp bkThree "org" "env" appCH "15m" respThree
      (Or.inl (by decide)) (fun _ => rfl)).1
    [[JVal.num 1000, JVal.num 7], [JVal.num 2000, JVal.num 8]]
    [JVal.num 3000, JVal.num 9] rfl 3000 rfl

/-- C5: for a supported app and a backend response, `GetRequestCount` returns
the sum of the value cell of every row of the first series of the first
result; an empty or absent series yields zero with a nil error, and an
application whose responses carry an empty series for both metrics ends with
`RequestCount = 0`, a null `LastCalled` and no failure descriptor. -/
theorem GetRequestCount_sum (backend : Backend) (orgID envID : String) (app : App)
    (lcWindow rcWindow : String) (resp : InfluxDBResponse)
    (hsupp : FilterCH1 app = true ∨ FilterRTF app = true)
    (hbk : ∀ q, backend q = Except.ok resp) :
    (∀ f : List JVal → Int,
      (∀ row ∈ firstSeriesValues resp, row.get? 1 = some (JVal.num (f row))) →
      (GetRequestCount backend orgID envID app rcWindow).1
        = (((firstSeriesValues resp).map f).sum, none)) ∧
    (firstSeriesValues resp = [] →
      (GetRequestCount backend orgID envID app rcWindow).1 = (0, none)) ∧
    (firstSeriesValues resp = [] →
      (monitorSingleApp backend orgID envID app lcWindow rcWindow).1.RequestCount = 0 ∧
      (monitorSingleApp backend orgID envID app lcWindow rcWindow).1.LastCalled
          = GoTime.zero ∧
      (monitorSingleApp backend orgID envID app lcWindow rcWindow).1.Err = none) := by
  have hrc := GetRequestCount_ok backend orgID envID app rcWindow resp hsupp hbk
  have hlc := GetLastCalledTime_ok backend orgID envID app lcWindow resp hsupp hbk
  refine ⟨?_, ?_, ?_⟩
  · intro f hvals
    rw [hrc]
    have : requestCountFromResp resp = ((firstSeriesValues resp).map f).sum := by
      unfold requestCountFromResp
      rw [requestCount_foldl_sum f (firstSeriesValues resp) hvals 0]
      ring
    rw [this]
  · intro hempty
    rw [hrc]
    simp [requestCountFromResp, hempty]
  · intro hempty
    have hrc0 : requestCountFromResp resp = 0 := by
      simp [requestCountFromResp, hempty]
    have hlc0 : lastCalledFromResp resp = GoTime.zero := by
      simp [lastCalledFromResp, hempty]
    refine ⟨?_, ?_, ?_⟩ <;>
      simp [monitorSingleApp, hrc, hlc, hrc0, hlc0]

/-- Witness for C5: with an empty-series response for both metrics, the
monitored app ends with count 0, a null timestamp and no failure
descriptor. -/
theorem GetRequestCount_sum_witness :
    (monitorSingleApp emptyBackend "org" "env" appCH "15m" "24h").1.RequestCount = 0 ∧
    (monitorSingleApp emptyBackend "org" "env" appCH "15m" "24h").1.LastCalled
        = GoTime.zero ∧
    (monitorSingleApp emptyBackend "org" "env" appCH "15m" "24h").1.Err = none :=
  (GetRequestCount_sum emptyBackend "org" "env" appCH "15m" "24h" ⟨[]⟩
      (Or.inl (by decide)) (fun _ => rfl)).2.2 rfl

/-- C7: for an app whose deployment target is neither CloudHub nor a runtime
fabric, both metric queries fail with an `unsupported app type` error and
issue no backend query, and `monitorSingleApp` yields a result whose failure
descriptor names the unsupported application type, whose request count is 0
and whose last-called timestamp is the zero value. -/
theorem unsupported_app_type (backend : Backend) (orgID envID : String) (app : App)
    (lcWindow rcWindow : String)
    (h1 : FilterCH1 app = false) (h2 : FilterRTF app = false) :
    GetLastCalledTime backend orgID envID app lcWindow
        = ((GoTime.zero, some ("unsupported app type: " ++ app.target.type)), []) ∧
    GetRequestCount backend orgID envID app rcWindow
        = ((0, some ("unsupported app type: " ++ app.target.type)), []) ∧
    (monitorSingleApp backend orgID envID app lcWindow rcWindow).1.Err
        = some ("lastCalled error: " ++ ("unsupported app type: " ++ app.target.type)
            ++ ", requestCount error: " ++ ("unsupported app type: " ++ app.target.type)) ∧
    (monitorSingleApp backend orgID envID app lcWindow rcWindow).1.RequestCount = 0 ∧
    (monitorSingleApp backend orgID envID app lcWindow rcWindow).1.LastCalled
        = GoTime.zero ∧
    (monitorSingleApp backend orgID envID app lcWindow rcWindow).2 = [] := by
  have hlc : GetLastCalledTime backend orgID envID app lcWindow
      = ((GoTime.zero, some ("unsupported app type: " ++ app.target.type)), []) := by
    simp [GetLastCalledTime, h1, h2]
  have hrc : GetRequestCount backend orgID envID app rcWindow
      = ((0, some ("unsupported app type: " ++ app.target.type)), []) := by
    simp [GetRequestCount, h1, h2]
  refine ⟨hlc, hrc, ?_, ?_, ?_, ?_⟩ <;>
    simp [monitorSingleApp, hlc, hrc, errOrNil]

/-- Witness for C7: a concrete app of target type `OTHER` ends with a failure
descriptor, zero count, null timestamp and no issued backend query. -/
theorem unsupported_app_type_witness :
    (monitorSingleApp emptyBackend "org" "env" appOther "15m" "24h").1.RequestCount = 0 ∧
    (monitorSingleApp emptyBackend "org" "env" appOther "15m" "24h").1.LastCalled
        = GoTime.zero ∧
    (monitorSingleApp emptyBackend "org" "env" appOther "15m" "24h").2 = [] := by
  have h := unsupported_app_type emptyBackend "org" "env" appOther "15m" "24h"
    (by decide) (by decide)
  exact ⟨h.2.2.2.1, h.2.2.2.2.1, h.2.2.2.2.2⟩

/-- C8: a result with request count 0 and a zero (null) last-called timestamp
is exported to CSV as a row whose count field is the string `0` and whose
last-called field is exactly the sentinel `No data`. -/
theorem exportCSV_no_data (fmtTime : GoTime → String) (results : List AppResult)
    (res : AppResult) (hmem : res ∈ results) (h0 : res.RequestCount = 0)
    (hz : res.LastCalled = GoTime.zero) :
    csvRecord fmtTime res = [res.AppID, "No data", "0", res.LCWindow, res.RCWindow] ∧
    [res.AppID, "No data", "0", res.LCWindow, res.RCWindow]
        ∈ exportResultsToCSVRecords fmtTime results := by
  have hrec : csvRecord fmtTime res
      = [res.AppID, "No data", "0", res.LCWindow, res.RCWindow] := by
    simp [csvRecord, hz, h0, GoTime.IsZero]
    decide
  refine ⟨hrec, ?_⟩
  have hmm := List.mem_map_of_mem (csvRecord fmtTime) hmem
  rw [hrec] at hmm
  exact List.mem_cons_of_mem _ hmm

/-- Witness for C8: the concrete zero-count, null-timestamp result renders as
count `0` and timestamp `No data`. -/
theorem exportCSV_no_data_witness :
    csvRecord (fun _ => "formatted") resZero
        = ["app-a", "No data", "0", "15m", "24h"] :=
  (exportCSV_no_data (fun _ => "formatted") [resZero] resZero
      (List.mem_singleton_self resZero) rfl rfl).1

/-- C9 counterexample: a backend response whose value cell is `-1` makes
`GetRequestCount` compute the negative count `-1`, so the request count is
not non-negative for every backend response. -/
theorem GetRequestCount_negative_counterexample :
    (GetRequestCount bkNeg "org" "env" appCH "24h").1.1 = -1 ∧
    ¬ 0 ≤ (GetRequestCount bkNeg "org" "env" appCH "24h").1.1 := by
  constructor
  · rfl
  · decide

/-- C9 (amended): whenever every numeric value cell the backend returns is
non-negative — as the metrics backend's request counts are — the value
`GetRequestCount` computes is non-negative, zero included. -/
theorem GetRequestCount_nonneg (backend : Backend) (orgID envID : String) (app : App)
    (timeWindow : String)
    (hnn : ∀ q resp, backend q = Except.ok resp →
      ∀ row ∈ firstSeriesValues resp, ∀ v : Int, row.get? 1 = some (JVal.num v) → 0 ≤ v) :
    0 ≤ (GetRequestCount backend orgID envID app timeWindow).1.1 := by
  have hfold : ∀ resp : InfluxDBResponse,
      (∀ row ∈ firstSeriesValues resp, ∀ v : Int,
        row.get? 1 = some (JVal.num v) → 0 ≤ v) →
      0 ≤ requestCountFromResp resp := by
    intro resp h
    unfold requestCountFromResp
    exact requestCount_foldl_nonneg (firstSeriesValues resp) h 0 le_rfl
  unfold GetRequestCount
  cases hc : FilterCH1 app
  · cases hr : FilterRTF app
    · simp
    · cases hb : backend (requestCountQueryRTF orgID envID app.target.id
        app.artifact.name timeWindow) with
      | error e => simp [hb]
      | ok resp =>
        simp only [hb, Bool.false_eq_true, if_false, if_true]
        exact hfold resp (hnn _ resp hb)
  · cases hb : backend (requestCountQueryCH1 orgID envID app.details.domain
      timeWindow) with
    | error e => simp [hb]
    | ok resp =>
      simp only [hb, if_true]
      exact hfold resp (hnn _ resp hb)

/-- Witness for C9 (amended): a backend answering with an empty result list
satisfies the non-negativity hypothesis vacuously and yields a non-negative
count. -/
theorem GetRequestCount_nonneg_witness :
    0 ≤ (GetRequestCount emptyBackend "org" "env" appCH "24h").1.1 := by
  apply GetRequestCount_nonneg
  intro q resp hq row hrow v hcell
  have hresp : (⟨[]⟩ : InfluxDBResponse) = resp := by
    injection hq
  rw [← hresp] at hrow
  simp [firstSeriesValues] at hrow

end MuleTracker
